import Mathlib

/-!
Verification of the eco_bot conversation engine, deadline pipeline and triage
mechanism.  Definitions are shallow embeddings of the Python source
(src/database.py, src/bot.py, src/admin_bot.py): SQLite tables become lists of
records, datetimes become integer instants, and each handler becomes a pure
function from a database state (plus the inbound event) to a new database
state and a structured reply.
-/

namespace EcoBot

/-- JSON-like values stored in a conversation context dictionary. -/
inductive Val
  | str (s : String)
  | int (n : Int)
  | bool (b : Bool)
  | null
deriving DecidableEq

/-- A conversation context: the context_data dictionary of user_states,
and the in-memory context.user_data of the bot process. -/
abbrev Ctx := List (String × Val)

/-- Dictionary assignment ctx[k] = v (replace first binding or append). -/
def ctxSet : Ctx → String → Val → Ctx
  | [], k, v => [(k, v)]
  | (k0, v0) :: rest, k, v =>
      if k0 = k then (k, v) :: rest else (k0, v0) :: ctxSet rest k v

/-- Dictionary lookup ctx.get(k, d). -/
def ctxGet (ctx : Ctx) (k : String) (d : Val) : Val :=
  match ctx.find? (fun kv => kv.1 == k) with
  | some kv => kv.2
  | none => d

/-- The loop in EcoBot.start that copies every saved key into working memory:
for key, value in saved_context.items(): context.user_data[key] = value. -/
def ctxMerge (wm : Ctx) (saved : Ctx) : Ctx :=
  saved.foldl (fun acc kv => ctxSet acc kv.1 kv.2) wm

/-- A row of the users table (src/database.py lines 21-35). -/
structure UserRow where
  userId : Nat
  username : Option String := none
  telegramFirstName : Option String := none
  telegramLastName : Option String := none
  firstName : Option String := none
  lastName : Option String := none
  participationType : String := "individual"
  familyMembersCount : Int := 1
  childrenInfo : Option String := none
  registrationCompleted : Bool := false
deriving DecidableEq

/-- A row of the user_states table (src/database.py lines 38-46). -/
structure UserState where
  userId : Nat
  currentState : Int := 0
  contextData : Ctx := []
deriving DecidableEq

/-- A row of the tasks table (src/database.py lines 49-61), with instants
as integers. -/
structure Task where
  id : Nat
  title : String := ""
  description : Option String := none
  link : Option String := none
  isOpen : Bool := true
  weekNumber : Option Int := none
  deadline : Option Int := none
  openDate : Option Int := none
deriving DecidableEq

/-- A row of the submissions table (src/database.py lines 64-79). -/
structure Submission where
  id : Nat
  userId : Nat
  taskId : Nat
  submissionDate : Int := 0
  submissionType : String := "text"
  content : Option String := none
  fileId : Option String := none
  filePath : Option String := none
  status : String := "pending"
  isOnTime : Bool := true
deriving DecidableEq

/-- The message_data JSON blob of an offline_messages row: either a payload
dictionary with keys type, content, file_id, file_path (written by the triage
handlers), or an arbitrary blob that does not parse to that shape. -/
inductive MsgData
  | payload (kind : String) (content : String)
      (fileId : Option String) (filePath : Option String)
  | raw (s : String)
deriving DecidableEq

/-- A row of the offline_messages inbox table (src/database.py lines 110-120). -/
structure OfflineMessage where
  id : Nat
  userId : Nat
  messageData : MsgData
  messageType : String := "text"
  processed : Bool := false
deriving DecidableEq

/-- The whole SQLite database, plus the AUTOINCREMENT counters. -/
structure DB where
  users : List UserRow := []
  userStates : List UserState := []
  tasks : List Task := []
  submissions : List Submission := []
  offlineMessages : List OfflineMessage := []
  nextSubmissionId : Nat := 1
  nextOfflineId : Nat := 1
deriving DecidableEq

/-- Database.get_user_state (src/database.py lines 139-156): missing row
reads as state 0 with empty context. -/
def get_user_state (db : DB) (uid : Nat) : Int × Ctx :=
  match db.userStates.find? (fun st => st.userId == uid) with
  | some st => (st.currentState, st.contextData)
  | none => (0, [])

/-- Database.save_user_state (src/database.py lines 124-137):
INSERT OR REPLACE keyed by user_id, an upsert. -/
def save_user_state (db : DB) (uid : Nat) (s : Int) (ctx : Ctx) : DB :=
  if (db.userStates.find? (fun st => st.userId == uid)).isSome then
    { db with userStates := db.userStates.map (fun st =>
        if st.userId == uid then { st with currentState := s, contextData := ctx }
        else st) }
  else
    { db with userStates :=
        db.userStates ++ [{ userId := uid, currentState := s, contextData := ctx }] }

/-- Database.clear_user_state (src/database.py lines 158-172): UPDATE to
state 0 and empty context, inserting the row when absent - an upsert to the
idle state. -/
def clear_user_state (db : DB) (uid : Nat) : DB :=
  save_user_state db uid 0 []

/-- Database.save_offline_message (src/database.py lines 174-182). -/
def save_offline_message (db : DB) (uid : Nat) (data : MsgData) (mtype : String) : DB :=
  { db with
      offlineMessages := db.offlineMessages ++
        [{ id := db.nextOfflineId, userId := uid, messageData := data,
           messageType := mtype, processed := false }],
      nextOfflineId := db.nextOfflineId + 1 }

/-- Database.mark_offline_message_processed (src/database.py lines 196-203). -/
def mark_offline_message_processed (db : DB) (mid : Nat) : DB :=
  { db with offlineMessages := db.offlineMessages.map (fun m =>
      if m.id == mid then { m with processed := true } else m) }

/-- EcoBot._process_offline_messages (src/bot.py lines 330-364): every
unprocessed offline message of the user is logged and marked processed. -/
def process_offline_messages (db : DB) (uid : Nat) : DB :=
  { db with offlineMessages := db.offlineMessages.map (fun m =>
      if m.userId == uid && !m.processed then { m with processed := true } else m) }

/-- Database.add_user (src/database.py lines 205-228): for an existing row
only the three platform-supplied columns are updated; otherwise a fresh row
is inserted with the schema defaults. -/
def add_user (db : DB) (uid : Nat) (username tgFirst tgLast : Option String) : DB :=
  if (db.users.find? (fun u => u.userId == uid)).isSome then
    { db with users := db.users.map (fun u =>
        if u.userId == uid then
          { u with username := username, telegramFirstName := tgFirst,
                   telegramLastName := tgLast }
        else u) }
  else
    { db with users := db.users ++
        [{ userId := uid, username := username, telegramFirstName := tgFirst,
           telegramLastName := tgLast }] }

/-- Database.is_user_registered (src/database.py lines 263-269). -/
def is_user_registered (db : DB) (uid : Nat) : Bool :=
  match db.users.find? (fun u => u.userId == uid) with
  | some u => u.registrationCompleted
  | none => false

/-- Database._check_submission_deadline (src/database.py lines 341-352):
true when the task row is missing, when its deadline column is NULL, or when
the submission instant is at or before the deadline. -/
def check_submission_deadline (db : DB) (taskId : Nat) (t : Int) : Bool :=
  match db.tasks.find? (fun tk => tk.id == taskId) with
  | none => true
  | some tk =>
    match tk.deadline with
    | none => true
    | some d => decide (t ≤ d)

/-- Database.submit_task (src/database.py lines 322-339): evaluates the
deadline at the current instant and inserts the submission with that flag. -/
def submit_task (db : DB) (now : Int) (uid taskId : Nat) (kind : String)
    (content fileId filePath : Option String) : DB × Bool :=
  let onTime := check_submission_deadline db taskId now
  ({ db with
      submissions := db.submissions ++
        [{ id := db.nextSubmissionId, userId := uid, taskId := taskId,
           submissionDate := now, submissionType := kind, content := content,
           fileId := fileId, filePath := filePath, status := "pending",
           isOnTime := onTime }],
      nextSubmissionId := db.nextSubmissionId + 1 }, onTime)

/-! ### Conversation engine (src/bot.py)

Step identifiers (src/bot.py lines 29-35): IDLE = 0,
REGISTRATION_FIRST_NAME = 1, REGISTRATION_LAST_NAME = 2,
PARTICIPATION_TYPE = 3, FAMILY_MEMBERS_COUNT = 4, CHILDREN_INFO = 5,
SUPPORT_MESSAGE = 10, TASK_SUBMISSION = 20, EDIT_FIRST_NAME = 30,
EDIT_LAST_NAME = 31. -/

/-- The prompt re-rendered by EcoBot._continue_from_state for a resumed step,
abstracted to its shape and the context values interpolated into it. -/
inductive Prompt
  | askLastName
  | askFirstName (lastName : Val)
  | askParticipation (firstName lastName : Val)
  | askFamilyCount
  | askChildren (count : Val)
  | editFirstName
  | editLastName
deriving DecidableEq

/-- Result of EcoBot._continue_from_state (src/bot.py lines 239-328). -/
inductive ContinueOutcome
  | prompt (p : Prompt) (ret : Int)
  | reset
  | nameError
deriving DecidableEq

/-- EcoBot._continue_from_state (src/bot.py lines 239-328), branch for branch.
The TASK_SUBMISSION branch (line 288) reads the name current_context which is
unbound in that function, so reaching it raises NameError: modelled as the
nameError outcome.  The final branch clears the state and ends. -/
def continue_from_state (db : DB) (uid : Nat) (ctx : Ctx) (s : Int) :
    DB × ContinueOutcome :=
  if s = 2 then (db, .prompt .askLastName 2)
  else if s = 1 then
    (db, .prompt (.askFirstName (ctxGet ctx "last_name" (.str ""))) 1)
  else if s = 3 then
    (db, .prompt (.askParticipation (ctxGet ctx "first_name" (.str ""))
      (ctxGet ctx "last_name" (.str ""))) 3)
  else if s = 4 then (db, .prompt .askFamilyCount 4)
  else if s = 5 then
    (db, .prompt (.askChildren (ctxGet ctx "family_members_count" (.int 1))) 5)
  else if s = 20 then (db, .nameError)
  else if s = 30 then (db, .prompt .editFirstName 30)
  else if s = 31 then (db, .prompt .editLastName 31)
  else (clear_user_state db uid, .reset)

/-- Specification view of _continue_from_state: the prompt it re-renders for
a given persisted step, when that branch renders one. -/
def stepPrompt (ctx : Ctx) (s : Int) : Option Prompt :=
  if s = 2 then some .askLastName
  else if s = 1 then some (.askFirstName (ctxGet ctx "last_name" (.str "")))
  else if s = 3 then some (.askParticipation (ctxGet ctx "first_name" (.str ""))
    (ctxGet ctx "last_name" (.str "")))
  else if s = 4 then some .askFamilyCount
  else if s = 5 then some (.askChildren (ctxGet ctx "family_members_count" (.int 1)))
  else if s = 20 then none
  else if s = 30 then some .editFirstName
  else if s = 31 then some .editLastName
  else none

/-- Top-level outcome of EcoBot.start. -/
inductive StartOutcome
  | resumed (userData : Ctx) (c : ContinueOutcome)
  | mainMenuWelcome
  | beginRegistration
deriving DecidableEq

/-- EcoBot.start (src/bot.py lines 154-237): upsert the user row, flush the
offline inbox, then either resume a saved non-idle state when registration is
incomplete, or clear the state and show the main menu to a registered user,
or begin registration by persisting step 2 (REGISTRATION_LAST_NAME).
wm is the in-memory context.user_data the handler starts with. -/
def start (db : DB) (uid : Nat) (username tgFirst tgLast : Option String)
    (wm : Ctx) : DB × StartOutcome :=
  let db1 := add_user db uid username tgFirst tgLast
  let db2 := process_offline_messages db1 uid
  let sc := get_user_state db2 uid
  if sc.1 ≠ 0 ∧ is_user_registered db2 uid = false then
    let m := ctxMerge wm sc.2
    let r := continue_from_state db2 uid m sc.1
    (r.1, .resumed m r.2)
  else if is_user_registered db2 uid = true then
    (clear_user_state db2 uid, .mainMenuWelcome)
  else
    (save_user_state db2 uid 2 [], .beginRegistration)

/-- Replies sent by the registration step handlers. -/
inductive RegReply
  | correctionLastName
  | askFirstName (lastName : String)
  | correctionFamilyCount
  | askChildren (count : Int)
deriving DecidableEq

/-- Python str.strip(): drops whitespace from both ends (modelled for the
common whitespace characters, over the underlying character list). -/
def isSpaceChar (ch : Char) : Bool :=
  ch = ' ' || ch = '\t' || ch = '\n' || ch = '\r'

/-- Python str.strip(). -/
def pyStrip (s : String) : String :=
  ⟨((s.data.dropWhile isSpaceChar).reverse.dropWhile isSpaceChar).reverse⟩

/-- Accumulates decimal digits; any non-digit character fails. -/
def decDigitsAux : List Char → Nat → Option Nat
  | [], acc => some acc
  | ch :: rest, acc =>
      if ch.isDigit then decDigitsAux rest (acc * 10 + (ch.toNat - 48)) else none

/-- A non-empty all-digit character list as a number. -/
def decNat? : List Char → Option Nat
  | [] => none
  | cs => decDigitsAux cs 0

/-- Python int(): strips whitespace, then an optional sign and decimal
digits (digit-group underscores are not modelled). -/
def pyParseInt (s : String) : Option Int :=
  match (pyStrip s).data with
  | '+' :: rest => (decNat? rest).map (fun n => (n : Int))
  | '-' :: rest => (decNat? rest).map (fun n => -(n : Int))
  | cs => (decNat? cs).map (fun n => (n : Int))

/-- EcoBot.registration_last_name (src/bot.py lines 366-415).  The input is
stripped; an empty or shorter-than-2-character surname re-persists step 2 with
a correction prompt, a valid one stores the surname and persists step 1. -/
def registration_last_name (db : DB) (uid : Nat) (wm : Ctx)
    (input date : String) : DB × Int × RegReply :=
  let lastName := pyStrip input
  let db := save_offline_message db uid (.raw input) "registration_input"
  if lastName = "" ∨ lastName.length < 2 then
    let db := save_user_state db uid 2
      [("invalid_attempts", .int 1), ("last_invalid_input", .str lastName),
       ("timestamp", .str date)]
    (db, 2, .correctionLastName)
  else
    let wm := ctxSet wm "last_name" (.str lastName)
    let db := save_user_state db uid 1
      (ctxSet (ctxSet wm "last_name_confirmed" (.bool true)) "timestamp" (.str date))
    (db, 1, .askFirstName lastName)

/-- EcoBot.family_members_count (src/bot.py lines 548-604).  A value that is
not an integer from 1 to 10 re-persists step 4 with a correction prompt; a
valid one stores the count and persists step 5 (CHILDREN_INFO). -/
def family_members_count (db : DB) (uid : Nat) (wm : Ctx)
    (input date : String) : DB × Int × RegReply :=
  let countInput := pyStrip input
  let db := save_offline_message db uid (.raw input) "registration_input"
  match pyParseInt countInput with
  | some count =>
    if count < 1 ∨ 10 < count then
      (save_user_state db uid 4
        (ctxSet (ctxSet (ctxSet wm "invalid_count_input" (.str countInput))
          "invalid_attempts" (.int 1)) "timestamp" (.str date)),
       4, .correctionFamilyCount)
    else
      let wm := ctxSet wm "family_members_count" (.int count)
      (save_user_state db uid 5
        (ctxSet (ctxSet wm "family_count_confirmed" (.bool true))
          "timestamp" (.str date)),
       5, .askChildren count)
  | none =>
    (save_user_state db uid 4
      (ctxSet (ctxSet (ctxSet wm "invalid_count_input" (.str countInput))
        "invalid_attempts" (.int 1)) "timestamp" (.str date)),
     4, .correctionFamilyCount)

/-! ### Triage of out-of-context content (src/bot.py) -/

/-- Reply of the unknown-command branch of EcoBot.handle_message: either the
loud warning that the content was NOT accepted as a submission, or the softer
unknown-command prompt. -/
inductive TriageReply
  | notAcceptedWarning
  | unknownCommand
deriving DecidableEq

/-- The unknown-command branch of EcoBot.handle_message for a registered user
(src/bot.py lines 816-866): the raw text is always logged as text_unknown;
text longer than 10 characters is additionally filed as an unprocessed
potential_report inbox entry and answered with the loud warning, shorter text
gets the softer prompt. -/
def triage_unknown_text (db : DB) (uid : Nat) (text : String) :
    DB × TriageReply :=
  let db1 := save_offline_message db uid (.raw text) "text_unknown"
  if 10 < text.length then
    let db2 := save_offline_message db1 uid
      (.payload "text" text none none) "potential_report"
    (db2, .notAcceptedWarning)
  else
    (db1, .unknownCommand)

/-- Outcome of the attachment handlers. -/
inductive AttachOutcome
  | registerPrompt
  | submissionFlow
  | savedPotential
deriving DecidableEq

/-- EcoBot.handle_photo_message (src/bot.py lines 1899-1943).  An unregistered
sender is only told to register (the reply claims the photo was saved, but no
row is written).  In the TASK_SUBMISSION step the content is delegated to the
submission handler (outside this claim, left abstract).  Otherwise the photo
is filed as an unprocessed potential_report entry regardless of caption. -/
def handle_photo_message (db : DB) (uid : Nat) (caption : Option String)
    (fileId : String) (filePath : Option String) :
    DB × AttachOutcome :=
  if is_user_registered db uid = false then
    (db, .registerPrompt)
  else if (get_user_state db uid).1 = 20 then
    (db, .submissionFlow)
  else
    let content := caption.getD "Фото без подписи"
    (save_offline_message db uid (.payload "photo" content (some fileId) filePath)
      "potential_report", .savedPotential)

/-- EcoBot.handle_document_message (src/bot.py lines 1991-2036), the same
shape as the photo handler with the document default caption. -/
def handle_document_message (db : DB) (uid : Nat) (caption : Option String)
    (fileId : String) (fileName : String) (filePath : Option String) :
    DB × AttachOutcome :=
  if is_user_registered db uid = false then
    (db, .registerPrompt)
  else if (get_user_state db uid).1 = 20 then
    (db, .submissionFlow)
  else
    let content := caption.getD ("Документ: " ++ fileName)
    (save_offline_message db uid
      (.payload "document" content (some fileId) filePath)
      "potential_report", .savedPotential)

/-! ### Moderation operations (src/admin_bot.py, src/database.py) -/

/-- The single database write of AdminBot.handle_edit_deadline
(src/admin_bot.py line 3254): UPDATE tasks SET deadline = ? WHERE id = ?.
The surrounding handler only parses and validates the entered date to choose
newDeadline; it touches no other table. -/
def edit_task_deadline (db : DB) (taskId : Nat) (newDeadline : Option Int) : DB :=
  { db with tasks := db.tasks.map (fun tk =>
      if tk.id == taskId then { tk with deadline := newDeadline } else tk) }

/-- AdminBot._approve_report (src/admin_bot.py lines 1389-1404):
UPDATE submissions SET status = approved WHERE id = ?. -/
def approve_report (db : DB) (sid : Nat) : DB :=
  { db with submissions := db.submissions.map (fun s =>
      if s.id == sid then { s with status := "approved" } else s) }

/-- AdminBot._reject_report (src/admin_bot.py lines 1406-1421). -/
def reject_report (db : DB) (sid : Nat) : DB :=
  { db with submissions := db.submissions.map (fun s =>
      if s.id == sid then { s with status := "rejected" } else s) }

/-- AdminBot._confirm_delete_task (src/admin_bot.py lines 1922-1946): one
transaction deleting all submissions of the task, then the task row. -/
def confirm_delete_task (db : DB) (taskId : Nat) : DB :=
  { db with
      submissions := db.submissions.filter (fun s => !(s.taskId == taskId)),
      tasks := db.tasks.filter (fun tk => !(tk.id == taskId)) }

/-- Database.mark_potential_report_as_submission (src/database.py lines
455-505).  Looks the inbox entry up by id only (neither its processed flag nor
the existence of the task is checked), evaluates the deadline at the current
instant, inserts an approved submission built from the payload, marks the
entry processed, and optionally files the admin note.  A payload that does
not parse returns false with no write. -/
def mark_potential_report_as_submission (db : DB) (now : Int)
    (messageId taskId : Nat) (adminNotes : Option String) : DB × Bool :=
  match db.offlineMessages.find? (fun m => m.id == messageId) with
  | none => (db, false)
  | some m =>
    match m.messageData with
    | .raw _ => (db, false)
    | .payload kind content fileId filePath =>
      let onTime := check_submission_deadline db taskId now
      let db1 := { db with
        submissions := db.submissions ++
          [{ id := db.nextSubmissionId, userId := m.userId, taskId := taskId,
             submissionDate := now, submissionType := kind,
             content := some content, fileId := fileId, filePath := filePath,
             status := "approved", isOnTime := onTime }],
        nextSubmissionId := db.nextSubmissionId + 1 }
      let db2 := mark_offline_message_processed db1 messageId
      let db3 := match adminNotes with
        | some note => save_offline_message db2 m.userId (.raw note) "admin_note"
        | none => db2
      (db3, true)

/-- Outcome of the admin-side promotion handler. -/
inductive AssignOutcome
  | taskNotFound
  | reportNotFound
  | assigned
  | jsonError
deriving DecidableEq

/-- AdminBot._assign_potential_to_task (src/admin_bot.py lines 2725-2791).
This handler aborts before any write when the task row is missing or the
inbox entry is missing.  On success it inserts a pending submission whose
submission_type is the literal text and whose is_on_time is the literal TRUE
(line 2771 hardcodes both), then marks the entry processed.  A payload that
does not parse aborts with no write. -/
def assign_potential_to_task (db : DB) (now : Int) (reportId taskId : Nat) :
    DB × AssignOutcome :=
  match db.tasks.find? (fun tk => tk.id == taskId) with
  | none => (db, .taskNotFound)
  | some _ =>
    match db.offlineMessages.find? (fun m => m.id == reportId) with
    | none => (db, .reportNotFound)
    | some m =>
      match m.messageData with
      | .raw _ => (db, .jsonError)
      | .payload _ content fileId _ =>
        let db1 := { db with
          submissions := db.submissions ++
            [{ id := db.nextSubmissionId, userId := m.userId, taskId := taskId,
               submissionDate := now, submissionType := "text",
               content := some content, fileId := fileId, filePath := none,
               status := "pending", isOnTime := true }],
          nextSubmissionId := db.nextSubmissionId + 1 }
        let db2 := mark_offline_message_processed db1 reportId
        (db2, .assigned)

/-! ### Derived views and concrete example databases -/

/-- The rows Database.get_potential_reports returns for a user
(src/database.py lines 435-453): unprocessed potential_report entries.
This counts them. -/
def countPotential (db : DB) (uid : Nat) : Nat :=
  (db.offlineMessages.filter (fun m =>
    m.userId == uid && (m.messageType == "potential_report" && !m.processed))).length

/-- Projection of a submission to its identity and on-time flag. -/
def onTimeView (s : Submission) : Nat × Bool := (s.id, s.isOnTime)

/-- Projection of a user row to the fields owned by the registration flow
(everything except the three platform-supplied columns). -/
def regView (u : UserRow) :
    Nat × Option String × Option String × String × Int × Option String × Bool :=
  (u.userId, u.firstName, u.lastName, u.participationType,
   u.familyMembersCount, u.childrenInfo, u.registrationCompleted)

/-- Example database: user 1 is mid-registration at step 1 with a saved
surname, and has no pending offline messages. -/
def dbResume : DB :=
  { users := [{ userId := 1 }],
    userStates :=
      [{ userId := 1, currentState := 1,
         contextData := [("last_name", .str "Иванова")] }] }

/-- Example database: user 2 completed registration and has a persisted
non-idle state (step 30, the name-edit step). -/
def dbRegistered : DB :=
  { users :=
      [{ userId := 2, registrationCompleted := true,
         firstName := some "Анна", lastName := some "Петрова" }],
    userStates := [{ userId := 2, currentState := 30 }] }

/-- Example database: a single task 7 whose deadline is the instant 100. -/
def dbTask7 : DB :=
  { tasks := [{ id := 7, title := "Неделя 1", deadline := some 100 }] }

/-- Example database: inbox entry 42 (an unprocessed text potential report
of user 5) and task 7 with a future deadline. -/
def dbPromo : DB :=
  { tasks := [{ id := 7, title := "Задание 7", deadline := some 1000 }],
    offlineMessages :=
      [{ id := 42, userId := 5,
         messageData := .payload "text" "Planted 3 trees today" none none,
         messageType := "potential_report" }] }

/-- The same inbox entry 42, but no task 7 (or any task) exists. -/
def dbPromoNoTask : DB :=
  { offlineMessages :=
      [{ id := 42, userId := 5,
         messageData := .payload "text" "Planted 3 trees today" none none,
         messageType := "potential_report" }] }

/-- Example database: user 9 exists but has not completed registration. -/
def dbUnregistered : DB := { users := [{ userId := 9 }] }

/-- Example database: user 9 completed registration and is idle. -/
def dbRegistered9 : DB :=
  { users := [{ userId := 9, registrationCompleted := true }] }

/-- Example database: registered user 1 with full registration data. -/
def dbProfile : DB :=
  { users :=
      [{ userId := 1, username := some "oldnick", firstName := some "Пётр",
         lastName := some "Иванов", participationType := "family",
         familyMembersCount := 3, childrenInfo := some "7 лет",
         registrationCompleted := true }] }

/-! ### Helper lemmas -/

theorem find?_append_of_none {α} (l₁ l₂ : List α) (p : α → Bool)
    (h : l₁.find? p = none) : (l₁ ++ l₂).find? p = l₂.find? p := by
  induction l₁ with
  | nil => rfl
  | cons hd tl ih =>
    by_cases hp : p hd = true
    · rw [List.find?_cons_of_pos _ hp] at h; exact absurd h (by simp)
    · rw [List.find?_cons_of_neg _ (by simp [hp])] at h
      simpa [List.find?_cons_of_neg _ (by simp [hp] : ¬ p hd = true)] using ih h

theorem find?_map_if {α} (l : List α) (p : α → Bool) (g : α → α)
    (hg : ∀ a, p a = true → p (g a) = true) :
    (l.map (fun a => if p a then g a else a)).find? p = (l.find? p).map g := by
  induction l with
  | nil => rfl
  | cons hd tl ih =>
    by_cases h : p hd = true
    · simp only [List.map_cons, if_pos h]
      rw [List.find?_cons_of_pos _ (hg hd h), List.find?_cons_of_pos _ h]
      rfl
    · simp only [List.map_cons, if_neg h]
      rw [List.find?_cons_of_neg _ h, List.find?_cons_of_neg _ h]
      exact ih

theorem get_user_state_congr (db1 db2 : DB) (uid : Nat)
    (h : db1.userStates = db2.userStates) :
    get_user_state db1 uid = get_user_state db2 uid := by
  simp [get_user_state, h]

theorem is_user_registered_congr (db1 db2 : DB) (uid : Nat)
    (h : db1.users = db2.users) :
    is_user_registered db1 uid = is_user_registered db2 uid := by
  simp [is_user_registered, h]

theorem add_user_userStates (db : DB) (uid : Nat) (a b c : Option String) :
    (add_user db uid a b c).userStates = db.userStates := by
  unfold add_user; split <;> rfl

theorem process_offline_userStates (db : DB) (uid : Nat) :
    (process_offline_messages db uid).userStates = db.userStates := rfl

theorem process_offline_users (db : DB) (uid : Nat) :
    (process_offline_messages db uid).users = db.users := rfl

theorem save_offline_userStates (db : DB) (uid : Nat) (d : MsgData) (ty : String) :
    (save_offline_message db uid d ty).userStates = db.userStates := rfl

theorem find?_users_update (l : List UserRow) (uid : Nat) (a b c : Option String) :
    (l.map (fun u => if u.userId == uid then
        { u with username := a, telegramFirstName := b, telegramLastName := c }
      else u)).find? (fun u => u.userId == uid)
    = (l.find? (fun u => u.userId == uid)).map
        (fun u => { u with username := a, telegramFirstName := b,
                           telegramLastName := c }) := by
  induction l with
  | nil => rfl
  | cons hd tl ih =>
    cases h : hd.userId == uid with
    | true =>
      simp only [List.map_cons, List.find?_cons, h, if_true, Option.map_some]
      rfl
    | false =>
      simp only [List.map_cons, List.find?_cons, h, Bool.false_eq_true, if_false]
      exact ih

theorem find?_states_upsert (l : List UserState) (uid : Nat) (s : Int) (ctx : Ctx) :
    (l.map (fun st => if st.userId == uid then
        { st with currentState := s, contextData := ctx } else st)).find?
      (fun st => st.userId == uid)
    = (l.find? (fun st => st.userId == uid)).map
        (fun st => { st with currentState := s, contextData := ctx }) := by
  induction l with
  | nil => rfl
  | cons hd tl ih =>
    cases h : hd.userId == uid with
    | true =>
      simp only [List.map_cons, List.find?_cons, h, if_true, Option.map_some]
      rfl
    | false =>
      simp only [List.map_cons, List.find?_cons, h, Bool.false_eq_true, if_false]
      exact ih

theorem is_user_registered_add_user (db : DB) (uid : Nat) (a b c : Option String) :
    is_user_registered (add_user db uid a b c) uid = is_user_registered db uid := by
  by_cases h : (db.users.find? (fun u => u.userId == uid)).isSome = true
  · have husers : (add_user db uid a b c).users
        = db.users.map (fun u => if u.userId == uid then
            { u with username := a, telegramFirstName := b, telegramLastName := c }
          else u) := by
      unfold add_user; rw [if_pos h]
    unfold is_user_registered
    rw [husers, find?_users_update]
    cases db.users.find? (fun u => u.userId == uid) <;> rfl
  · have hn : db.users.find? (fun u => u.userId == uid) = none := by
      cases hf : db.users.find? (fun u => u.userId == uid) with
      | none => rfl
      | some u => rw [hf] at h; exact absurd rfl h
    have husers : (add_user db uid a b c).users
        = db.users ++
          [{ userId := uid, username := a, telegramFirstName := b,
             telegramLastName := c }] := by
      unfold add_user; rw [if_neg h]
    unfold is_user_registered
    rw [husers, find?_append_of_none _ _ _ hn, hn]
    simp [List.find?]

theorem get_user_state_save (db : DB) (uid : Nat) (s : Int) (ctx : Ctx) :
    get_user_state (save_user_state db uid s ctx) uid = (s, ctx) := by
  by_cases h : (db.userStates.find? (fun st => st.userId == uid)).isSome = true
  · have hst : (save_user_state db uid s ctx).userStates
        = db.userStates.map (fun st => if st.userId == uid then
            { st with currentState := s, contextData := ctx } else st) := by
      unfold save_user_state; rw [if_pos h]
    unfold get_user_state
    rw [hst, find?_states_upsert]
    cases hf : db.userStates.find? (fun st => st.userId == uid) with
    | none => rw [hf] at h; simp at h
    | some st => rfl
  · have hn : db.userStates.find? (fun st => st.userId == uid) = none := by
      cases hf : db.userStates.find? (fun st => st.userId == uid) with
      | none => rfl
      | some st => rw [hf] at h; exact absurd rfl h
    have hst : (save_user_state db uid s ctx).userStates
        = db.userStates ++ [{ userId := uid, currentState := s, contextData := ctx }] := by
      unfold save_user_state; rw [if_neg h]
    unfold get_user_state
    rw [hst, find?_append_of_none _ _ _ hn]
    simp [List.find?]

theorem continue_from_state_render (db : DB) (uid : Nat) (m : Ctx) (s : Int)
    (p : Prompt) (hp : stepPrompt m s = some p) :
    continue_from_state db uid m s = (db, .prompt p s) := by
  unfold stepPrompt at hp
  unfold continue_from_state
  split_ifs at hp ⊢ with h1 h2 h3 h4 h5 h6 h7 h8 <;>
    simp_all

/-! ### Claim C2: the deadline evaluator -/

/-- C2: the deadline evaluator returns true exactly when the stored deadline
is null or the submission instant is at or before the deadline (the boundary
instant itself is on-time, any later instant is late); a task row with no
stored deadline value, or no row at all, is always on-time. -/
theorem check_submission_deadline_spec (db : DB) (taskId : Nat) (t : Int) :
    (∀ tk, db.tasks.find? (fun x => x.id == taskId) = some tk →
      (check_submission_deadline db taskId t = true ↔
        (tk.deadline = none ∨ ∃ d, tk.deadline = some d ∧ t ≤ d))) ∧
    (db.tasks.find? (fun x => x.id == taskId) = none →
      check_submission_deadline db taskId t = true) := by
  constructor
  · intro tk hfind
    unfold check_submission_deadline
    rw [hfind]
    cases hdl : tk.deadline with
    | none => simp [hdl]
    | some d => simp [hdl]
  · intro hnone
    unfold check_submission_deadline
    rw [hnone]

/-- C2 witness: task 7 has deadline instant 100 - a submission at 100 is
on-time and one at 101 is late; a database without the task row is always
on-time. -/
theorem check_submission_deadline_spec_witness :
    check_submission_deadline dbTask7 7 100 = true ∧
    check_submission_deadline dbTask7 7 101 = false ∧
    check_submission_deadline dbPromoNoTask 7 0 = true :=
  ⟨((check_submission_deadline_spec dbTask7 7 100).1
      { id := 7, title := "Неделя 1", deadline := some 100 } (by decide)).mpr
      (Or.inr ⟨100, rfl, by decide⟩),
   by decide,
   (check_submission_deadline_spec dbPromoNoTask 7 0).2 (by decide)⟩

/-! ### Claim C3: immutability of is_on_time -/

theorem map_onTimeView_set_status (l : List Submission) (sid : Nat) (st : String) :
    ((l.map (fun s => if s.id == sid then { s with status := st } else s)).map
      onTimeView) = l.map onTimeView := by
  induction l with
  | nil => rfl
  | cons hd tl ih =>
    cases h : hd.id == sid with
    | true => simp only [List.map_cons, h, if_true, ih]; rfl
    | false => simp only [List.map_cons, h, Bool.false_eq_true, if_false, ih]

/-- C3: a submission's persisted is_on_time flag is a frame of every later
operation: editing the owning task's deadline leaves the submissions table
untouched, and approving or rejecting a submission changes only its status,
never the (id, is_on_time) view of any row. -/
theorem is_on_time_immutable (db : DB) (taskId sid : Nat) (dl : Option Int) :
    (edit_task_deadline db taskId dl).submissions = db.submissions ∧
    (approve_report db sid).submissions.map onTimeView
      = db.submissions.map onTimeView ∧
    (reject_report db sid).submissions.map onTimeView
      = db.submissions.map onTimeView :=
  ⟨rfl, map_onTimeView_set_status db.submissions sid "approved",
    map_onTimeView_set_status db.submissions sid "rejected"⟩

/-! ### Claim C8: cascading delete -/

/-- C8: deleting task T removes exactly the submissions whose task_id is T -
afterwards a submission is in the table iff it was there before and
references a different task, so no orphans remain and no unrelated
submission is lost. -/
theorem delete_task_cascades (db : DB) (taskId : Nat) (s : Submission) :
    s ∈ (confirm_delete_task db taskId).submissions ↔
      s ∈ db.submissions ∧ s.taskId ≠ taskId := by
  simp [confirm_delete_task, List.mem_filter]

/-! ### Claim C10: add_user frame on registration data -/

theorem map_regView_update (l : List UserRow) (uid : Nat) (a b c : Option String) :
    ((l.map (fun u => if u.userId == uid then
        { u with username := a, telegramFirstName := b, telegramLastName := c }
      else u)).map regView) = l.map regView := by
  induction l with
  | nil => rfl
  | cons hd tl ih =>
    cases h : hd.userId == uid with
    | true => simp only [List.map_cons, h, if_true, ih]; rfl
    | false => simp only [List.map_cons, h, Bool.false_eq_true, if_false, ih]

/-- C10: for an already existing user id, add_user updates only the three
platform-supplied columns: the registration-owned fields (self-declared
names, participation type, family size, children info, registration flag) of
every row are unchanged, and the matching row carries the new platform
values.  Re-issuing start therefore never un-registers a registered user. -/
theorem add_user_preserves_registration (db : DB) (uid : Nat)
    (a b c : Option String)
    (h : (db.users.find? (fun u => u.userId == uid)).isSome = true) :
    (add_user db uid a b c).users.map regView = db.users.map regView ∧
    ∀ u ∈ (add_user db uid a b c).users, u.userId = uid →
      u.username = a ∧ u.telegramFirstName = b ∧ u.telegramLastName = c := by
  have husers : (add_user db uid a b c).users
      = db.users.map (fun u => if u.userId == uid then
          { u with username := a, telegramFirstName := b, telegramLastName := c }
        else u) := by
    unfold add_user; rw [if_pos h]
  constructor
  · rw [husers]; exact map_regView_update db.users uid a b c
  · rw [husers]
    intro u hu huid
    rcases List.mem_map.1 hu with ⟨v, hv, rfl⟩
    cases hb : v.userId == uid with
    | true => simp [hb]
    | false =>
      simp only [hb, Bool.false_eq_true, if_false] at huid
      rw [huid] at hb
      simp at hb

/-- C10 witness: re-running the upsert for the registered user 1 changes the
username only; the registration view of the table is unchanged. -/
theorem add_user_preserves_registration_witness :
    (add_user dbProfile 1 (some "newnick") (some "P") none).users.map regView
      = dbProfile.users.map regView :=
  (add_user_preserves_registration dbProfile 1 (some "newnick") (some "P") none
    (by decide)).1

/-! ### Claim C6: the triage threshold -/

theorem countPotential_save (db : DB) (uid uid2 : Nat) (d : MsgData) (ty : String) :
    countPotential (save_offline_message db uid2 d ty) uid
    = countPotential db uid +
        (if (uid2 == uid && (ty == "potential_report")) = true then 1 else 0) := by
  unfold countPotential save_offline_message
  rw [List.filter_append, List.length_append]
  congr 1
  rw [List.filter_cons, List.filter_nil]
  cases h : (uid2 == uid && (ty == "potential_report")) with
  | true =>
    rw [if_pos (by simp_all)]
    rfl
  | false =>
    rw [if_neg (by simp_all)]
    rfl

/-- C6: for a registered user's text that matches no step and no menu
command, the triage is fully determined by the threshold the source tests
(len(text) > 10, that is at least 11 characters): at or above the threshold
the text is filed as an unprocessed potential_report inbox entry and
answered with the loud not-accepted warning; below it no potential-report
entry is filed (the text is logged only as unknown-command noise) and the
softer prompt is sent. -/
theorem triage_threshold (db : DB) (uid : Nat) (text : String) :
    (triage_unknown_text db uid text).2
      = (if 10 < text.length then TriageReply.notAcceptedWarning
         else TriageReply.unknownCommand) ∧
    countPotential (triage_unknown_text db uid text).1 uid
      = countPotential db uid + (if 10 < text.length then 1 else 0) := by
  unfold triage_unknown_text
  by_cases h : 10 < text.length
  · rw [if_pos h, if_pos h, if_pos h]
    refine ⟨rfl, ?_⟩
    rw [countPotential_save, countPotential_save]
    have h1 : (("text_unknown" : String) == "potential_report") = false := by decide
    have h2 : (("potential_report" : String) == "potential_report") = true := by decide
    simp [h1, h2]
  · rw [if_neg h, if_neg h, if_neg h]
    refine ⟨rfl, ?_⟩
    rw [countPotential_save]
    have h1 : (("text_unknown" : String) == "potential_report") = false := by decide
    simp [h1]

/-! ### Claim C9: invalid input keeps the step -/

/-- C9: when a step validator rejects the input, the persisted state still
names the same step and a correction prompt is returned: a surname shorter
than 2 characters (after stripping) re-persists step 2, and a family size
that does not parse as an integer from 1 to 10 re-persists step 4. -/
theorem invalid_input_keeps_step (db : DB) (uid : Nat) (wm : Ctx)
    (input1 input2 date1 date2 : String) :
    ((pyStrip input1).length < 2 →
      (get_user_state (registration_last_name db uid wm input1 date1).1 uid).1 = 2 ∧
      (registration_last_name db uid wm input1 date1).2.2
        = RegReply.correctionLastName) ∧
    ((∀ c, pyParseInt (pyStrip input2) = some c → c < 1 ∨ 10 < c) →
      (get_user_state (family_members_count db uid wm input2 date2).1 uid).1 = 4 ∧
      (family_members_count db uid wm input2 date2).2.2
        = RegReply.correctionFamilyCount) := by
  constructor
  · intro h
    have hcond : pyStrip input1 = "" ∨ (pyStrip input1).length < 2 := Or.inr h
    simp only [registration_last_name, if_pos hcond]
    exact ⟨by rw [get_user_state_save], trivial⟩
  · intro h
    cases hp : pyParseInt (pyStrip input2) with
    | none =>
      simp only [family_members_count, hp]
      exact ⟨by rw [get_user_state_save], trivial⟩
    | some c =>
      simp only [family_members_count, hp, if_pos (h c hp)]
      exact ⟨by rw [get_user_state_save], trivial⟩

/-- C9 witness: the surname input with one visible character and the family
size 11 both leave their steps persisted with a correction reply. -/
theorem invalid_input_keeps_step_witness :
    ((get_user_state (registration_last_name dbRegistered9 9 [] " x " "d").1 9).1 = 2 ∧
     (registration_last_name dbRegistered9 9 [] " x " "d").2.2
       = RegReply.correctionLastName) ∧
    ((get_user_state (family_members_count dbRegistered9 9 [] "11" "d").1 9).1 = 4 ∧
     (family_members_count dbRegistered9 9 [] "11" "d").2.2
       = RegReply.correctionFamilyCount) :=
  ⟨(invalid_input_keeps_step dbRegistered9 9 [] " x " "11" "d" "d").1 (by decide),
   (invalid_input_keeps_step dbRegistered9 9 [] " x " "11" "d" "d").2
     (fun c hc => by
       have h11 : pyParseInt (pyStrip "11") = some 11 := by decide
       rw [h11] at hc
       injection hc with h2
       omega)⟩

/-! ### Claim C7: attachments outside the submission step (code bug) -/

/-- C7: evaluation at the failing input.  An unregistered user sends a photo
or a document: the handler replies that the file was saved and will be
processed after registration, yet returns the database unchanged - no
inbox entry of any kind is filed, contradicting both the spec and the reply
text itself.  For a registered user outside the submission step the same
attachments are always filed as potential reports regardless of caption. -/
theorem unregistered_attachment_not_filed :
    handle_photo_message dbUnregistered 9 none "f1" none
      = (dbUnregistered, AttachOutcome.registerPrompt) ∧
    handle_document_message dbUnregistered 9 none "f1" "отчет.pdf" none
      = (dbUnregistered, AttachOutcome.registerPrompt) ∧
    countPotential (handle_photo_message dbRegistered9 9 (some "фото") "f1" none).1 9
      = 1 ∧
    countPotential
      (handle_document_message dbRegistered9 9 none "f1" "отчет.pdf" none).1 9
      = 1 := by
  decide

/-! ### Claim C4: promotion of an inbox entry -/

/-- C4 counterexample: promoting inbox entry 42 to task 7 a second time is
neither a no-op nor an error - the entry is already marked processed after
the first call, yet the second call succeeds again and the submissions table
ends with two rows, because the promotion never checks the processed flag. -/
theorem repeat_promotion_duplicates :
    (mark_potential_report_as_submission dbPromo 500 42 7 none).2 = true ∧
    ((mark_potential_report_as_submission dbPromo 500 42 7 none).1.offlineMessages.filter
        (fun m => m.id == 42 && m.processed)).length = 1 ∧
    (mark_potential_report_as_submission
        (mark_potential_report_as_submission dbPromo 500 42 7 none).1
        500 42 7 none).2 = true ∧
    (mark_potential_report_as_submission
        (mark_potential_report_as_submission dbPromo 500 42 7 none).1
        500 42 7 none).1.submissions.length = 2 := by
  decide

/-- C4 amended: a single promotion call on an inbox entry whose payload
parses appends exactly one submission, built from the payload, with
is_on_time computed by the deadline evaluator against the task's current
deadline at the current instant, and marks the entry processed - but the
call does not guard on the processed flag, so re-invoking it duplicates the
submission (see the counterexample). -/
theorem promotion_single_call (db : DB) (now : Int) (mid tid : Nat)
    (m : OfflineMessage) (kind content : String) (fi fp : Option String)
    (hm : db.offlineMessages.find? (fun x => x.id == mid) = some m)
    (hpay : m.messageData = .payload kind content fi fp) :
    mark_potential_report_as_submission db now mid tid none
      = ({ db with
            submissions := db.submissions ++
              [{ id := db.nextSubmissionId, userId := m.userId, taskId := tid,
                 submissionDate := now, submissionType := kind,
                 content := some content, fileId := fi, filePath := fp,
                 status := "approved",
                 isOnTime := check_submission_deadline db tid now }],
            nextSubmissionId := db.nextSubmissionId + 1,
            offlineMessages := db.offlineMessages.map (fun x =>
              if x.id == mid then { x with processed := true } else x) },
         true) := by
  obtain ⟨mid0, muid, mdata, mty, mproc⟩ := m
  dsimp only at hpay
  subst hpay
  unfold mark_potential_report_as_submission
  rw [hm]
  rfl

/-- C4 witness: promoting entry 42 of the example inbox yields the one
approved submission with the payload text, on time for the deadline 1000. -/
theorem promotion_single_call_witness :
    (mark_potential_report_as_submission dbPromo 500 42 7 none).1.submissions
      = [{ id := 1, userId := 5, taskId := 7, submissionDate := 500,
           submissionType := "text", content := some "Planted 3 trees today",
           status := "approved", isOnTime := true }] := by
  rw [promotion_single_call dbPromo 500 42 7
    { id := 42, userId := 5,
      messageData := .payload "text" "Planted 3 trees today" none none,
      messageType := "potential_report" }
    "text" "Planted 3 trees today" none none (by decide) rfl]
  decide

/-! ### Claim C5: promotion when the task no longer exists -/

/-- C5 counterexample: with no task 7 (no task at all) in the database,
promoting entry 42 still reports success, inserts a submission referencing
the missing task, and flips the entry to processed - a write on a dangling
reference instead of a clean failure. -/
theorem promotion_missing_task_writes :
    (mark_potential_report_as_submission dbPromoNoTask 500 42 7 none).2 = true ∧
    (mark_potential_report_as_submission dbPromoNoTask 500 42 7 none).1.submissions.length
      = 1 ∧
    ((mark_potential_report_as_submission dbPromoNoTask 500 42 7 none).1.offlineMessages.filter
        (fun m => m.id == 42 && m.processed)).length = 1 := by
  decide

/-- C5 amended: only the admin-side handler pre-checks the task row - when
the task is missing it aborts before any write and returns the database
unchanged with a task-not-found reply; the Database-level promotion performs
no such check (see the counterexample). -/
theorem assign_missing_task_clean (db : DB) (now : Int) (reportId taskId : Nat)
    (h : db.tasks.find? (fun tk => tk.id == taskId) = none) :
    assign_potential_to_task db now reportId taskId = (db, .taskNotFound) := by
  unfold assign_potential_to_task
  rw [h]

/-- C5 witness: the admin handler on the task-less database aborts cleanly. -/
theorem assign_missing_task_clean_witness :
    assign_potential_to_task dbPromoNoTask 500 42 7
      = (dbPromoNoTask, AssignOutcome.taskNotFound) :=
  assign_missing_task_clean dbPromoNoTask 500 42 7 (by decide)

/-! ### Claim C1: resumption on a fresh start -/

/-- C1 counterexample: user 2 completed registration and has the persisted
non-idle state 30 (the name-edit step); a fresh start does not restore the
context or re-render the prompt of step 30 - it clears the state to idle and
returns to the main menu. -/
theorem start_registered_returns_to_menu :
    (start dbRegistered 2 none none none []).2 = StartOutcome.mainMenuWelcome ∧
    get_user_state (start dbRegistered 2 none none none []).1 2 = (0, []) := by
  decide

/-- C1 amended: resumption holds exactly for users whose registration is
incomplete - for any persisted non-idle step that _continue_from_state can
render (the registration steps 1-5 and the edit steps 30, 31), a fresh start
merges the persisted context into working memory, re-renders the prompt of
the currently persisted step, and leaves the persisted state unchanged (so
resuming after a restart yields the same prompt as resuming without one);
registered users instead have their state cleared and see the main menu. -/
theorem start_resumes_unregistered (db : DB) (uid : Nat)
    (a b c : Option String) (wm : Ctx) (s : Int) (ctx : Ctx) (p : Prompt)
    (hreg : is_user_registered db uid = false)
    (hstate : get_user_state db uid = (s, ctx))
    (hp : stepPrompt (ctxMerge wm ctx) s = some p) :
    (start db uid a b c wm).2
      = StartOutcome.resumed (ctxMerge wm ctx) (ContinueOutcome.prompt p s) ∧
    get_user_state (start db uid a b c wm).1 uid = (s, ctx) := by
  have hstates : (process_offline_messages (add_user db uid a b c) uid).userStates
      = db.userStates := by
    rw [process_offline_userStates, add_user_userStates]
  have hstate2 : get_user_state (process_offline_messages (add_user db uid a b c) uid) uid
      = (s, ctx) :=
    (get_user_state_congr _ db uid hstates).trans hstate
  have hreg2 : is_user_registered (process_offline_messages (add_user db uid a b c) uid) uid
      = false :=
    ((is_user_registered_congr _ (add_user db uid a b c) uid
        (process_offline_users _ _)).trans
      (is_user_registered_add_user db uid a b c)).trans hreg
  have hs0 : s ≠ 0 := by
    intro h0
    rw [h0] at hp
    simp [stepPrompt] at hp
  have hmain : start db uid a b c wm
      = (process_offline_messages (add_user db uid a b c) uid,
         StartOutcome.resumed (ctxMerge wm ctx) (ContinueOutcome.prompt p s)) := by
    simp only [start, hstate2, hreg2, eq_self_iff_true, and_true]
    rw [if_pos hs0]
    rw [continue_from_state_render _ uid _ s p hp]
  exact ⟨by rw [hmain], by rw [hmain]; exact hstate2⟩

/-- C1 witness: user 1 is mid-registration at step 1 with a saved surname; a
fresh start restores the surname into working memory, re-renders the step-1
prompt interpolating it, and keeps the persisted state. -/
theorem start_resumes_unregistered_witness :
    (start dbResume 1 none none none []).2
      = StartOutcome.resumed [("last_name", Val.str "Иванова")]
          (ContinueOutcome.prompt (Prompt.askFirstName (Val.str "Иванова")) 1) ∧
    get_user_state (start dbResume 1 none none none []).1 1
      = (1, [("last_name", Val.str "Иванова")]) :=
  start_resumes_unregistered dbResume 1 none none none []
    1 [("last_name", Val.str "Иванова")] (Prompt.askFirstName (Val.str "Иванова"))
    (by decide) (by decide) (by decide)

end EcoBot
